import Mathlib

/-!
Verification of the audio-to-sheet-music transcription service.

The backend is a transcription job lifecycle manager (Job Registry,
Artifact Store, Transcription Engine, Job Orchestrator); the frontend
`Home` component displays results and download links.  The backend core
(`main.py`, `audio_processor.py`) is not present in the repository
snapshot, so its operations are modelled from the specification; the
frontend `Home` component is embedded directly from
`src/frontend/app/page.tsx`.
-/

deriving instance DecidableEq for Except

namespace Transcriber

/-- Job status values. `Deleted` is represented by absence from the
registry, since the spec says deletion removes the Registry record. -/
inductive JobStatus
  | Uploaded
  | Processing
  | Completed
  | Failed
deriving DecidableEq, Repr

/-- Filesystem paths managed by the Artifact Store.  The store generates
collision-free names from a counter; paths are opaque to callers. -/
inductive FsPath
  | input (n : Nat) (ext : String)
  | midi (n : Nat)
  | musicxml (n : Nat)
deriving DecidableEq, Repr

/-- The two downloadable artifact kinds. -/
inductive ArtifactKind
  | midi
  | musicxml
deriving DecidableEq, Repr

/-- Modelled from the spec: the Job record of §3 (DATA MODEL); the backend
source `main.py` is absent from the repository snapshot. -/
structure Job where
  id : Nat
  status : JobStatus
  input_path : FsPath
  midi_path : Option FsPath
  musicxml_path : Option FsPath
  error : Option String
  created_at : Nat
deriving DecidableEq, Repr

/-- Error taxonomy of §7 that the orchestrator operations surface. -/
inductive OrchError
  | UnsupportedFormat
  | NotFound
  | InvalidState
  | AlreadyRunning
deriving DecidableEq, Repr

/-- Outcome of one Transcription Engine invocation: either both encoded
byte streams, or a failure detail (decode/model/encode error). -/
inductive EngineResult
  | success (midiBytes musicxmlBytes : List Nat)
  | failure (err : String)
deriving DecidableEq, Repr

/-- Modelled from the spec: the whole in-memory/filesystem state of the
backend (Job Registry, Artifact Store contents, fresh-name counters) plus
a ghost counter of Transcription Engine invocations, used to state the
concurrency contract.  The backend source is absent from the snapshot. -/
structure SysState where
  registry : List (Nat × Job)
  files : List (FsPath × List Nat)
  nextId : Nat
  nextPath : Nat
  engineCalls : Nat
deriving DecidableEq, Repr

/-- The empty initial state of a freshly started backend process. -/
def initState : SysState :=
  { registry := [], files := [], nextId := 0, nextPath := 0, engineCalls := 0 }

/-- Registry lookup: `get(id) -> Job | NotFound`. -/
def regGet (r : List (Nat × Job)) (j : Nat) : Option Job :=
  match r with
  | [] => none
  | (k, job) :: rest => if k = j then some job else regGet rest j

/-- Registry update: replace the record stored under `j`. -/
def regUpdate (r : List (Nat × Job)) (j : Nat) (job : Job) : List (Nat × Job) :=
  match r with
  | [] => []
  | (k, old) :: rest =>
      if k = j then (k, job) :: rest else (k, old) :: regUpdate rest j job

/-- Registry deletion: remove the record stored under `j`. -/
def regRemove (r : List (Nat × Job)) (j : Nat) : List (Nat × Job) :=
  match r with
  | [] => []
  | (k, old) :: rest =>
      if k = j then regRemove rest j else (k, old) :: regRemove rest j

/-- Artifact Store read: the bytes stored under a path, if any. -/
def fsRead (fs : List (FsPath × List Nat)) (p : FsPath) : Option (List Nat) :=
  match fs with
  | [] => none
  | (q, bs) :: rest => if q = p then some bs else fsRead rest p

/-- Artifact Store `remove(path)`: best-effort delete, idempotent
(absence of the file is not an error). -/
def fsRemove (fs : List (FsPath × List Nat)) (p : FsPath) : List (FsPath × List Nat) :=
  match fs with
  | [] => []
  | (q, bs) :: rest =>
      if q = p then fsRemove rest p else (q, bs) :: fsRemove rest p

/-- The allowed audio extensions of the Artifact Store contract (§4.1)
and the backend README (Поддерживаемые форматы). -/
def allowedExts : List String := ["wav", "mp3", "ogg", "flac", "m4a"]

/-- Modelled from the spec: `submit(audio_bytes, extension)` of §4.4 —
validates the extension (failing fast with `UnsupportedFormat` before any
state mutation), persists the upload, creates the Job in `Uploaded` state
and returns the new job id.  The backend source is absent. -/
def submit (bytes : List Nat) (ext : String) (t : Nat) (s : SysState) :
    Except OrchError Nat × SysState :=
  if ext ∈ allowedExts then
    let j := s.nextId
    let p := FsPath.input s.nextPath ext
    let job : Job :=
      { id := j, status := JobStatus.Uploaded, input_path := p,
        midi_path := none, musicxml_path := none, error := none, created_at := t }
    (Except.ok j,
      { registry := (j, job) :: s.registry,
        files := (p, bytes) :: s.files,
        nextId := j + 1,
        nextPath := s.nextPath + 1,
        engineCalls := s.engineCalls })
  else
    (Except.error OrchError.UnsupportedFormat, s)

/-- Modelled from the spec: the first half of `run(job_id)` (§4.4, §5) —
the exclusive compare-and-set of status from `Uploaded`/`Failed` to
`Processing`, which hands the input to the Transcription Engine (counted
in `engineCalls`).  A job already `Processing` fails fast with
`AlreadyRunning`; a `Completed` job is rejected with `InvalidState`.
The backend source is absent. -/
def runStart (j : Nat) (s : SysState) : Except OrchError Unit × SysState :=
  match regGet s.registry j with
  | none => (Except.error OrchError.NotFound, s)
  | some job =>
      if job.status = JobStatus.Processing then
        (Except.error OrchError.AlreadyRunning, s)
      else if job.status = JobStatus.Completed then
        (Except.error OrchError.InvalidState, s)
      else
        (Except.ok (),
          { s with
            registry := regUpdate s.registry j
              { job with status := JobStatus.Processing, error := none },
            engineCalls := s.engineCalls + 1 })

/-- Modelled from the spec: the second half of `run(job_id)` (§4.4) —
the Engine's outcome settles the `Processing` job: on success both byte
streams are persisted via the Artifact Store and the job moves to
`Completed` with the artifact paths recorded; on failure it moves to
`Failed` with the error detail recorded.  The backend source is absent. -/
def runSettle (j : Nat) (r : EngineResult) (s : SysState) : SysState :=
  match regGet s.registry j with
  | none => s
  | some job =>
      if job.status = JobStatus.Processing then
        match r with
        | EngineResult.success mb xb =>
            let mp := FsPath.midi s.nextPath
            let xp := FsPath.musicxml s.nextPath
            { s with
              files := (xp, xb) :: (mp, mb) :: s.files,
              nextPath := s.nextPath + 1,
              registry := regUpdate s.registry j
                { job with status := JobStatus.Completed,
                           midi_path := some mp, musicxml_path := some xp,
                           error := none } }
        | EngineResult.failure e =>
            { s with
              registry := regUpdate s.registry j
                { job with status := JobStatus.Failed, error := some e } }
      else s

/-- Modelled from the spec: the synchronous `run(job_id)` — the exclusive
transition into `Processing` followed by the Engine invocation on the
job's input and the settling of the outcome.  The backend source is
absent. -/
def run (eng : FsPath → EngineResult) (j : Nat) (s : SysState) :
    Except OrchError Unit × SysState :=
  match runStart j s with
  | (Except.error e, s1) => (Except.error e, s1)
  | (Except.ok _, s1) =>
      match regGet s1.registry j with
      | none => (Except.error OrchError.NotFound, s1)
      | some job => (Except.ok (), runSettle j (eng job.input_path) s1)

/-- Modelled from the spec: `status(job_id)` — read-only snapshot of the
Job, `NotFound` if unknown.  The backend source is absent. -/
def statusOf (j : Nat) (s : SysState) : Except OrchError Job :=
  match regGet s.registry j with
  | none => Except.error OrchError.NotFound
  | some job => Except.ok job

/-- The recorded path of a given artifact kind on a Job record. -/
def artifactPath (job : Job) (k : ArtifactKind) : Option FsPath :=
  match k with
  | ArtifactKind.midi => job.midi_path
  | ArtifactKind.musicxml => job.musicxml_path

/-- Modelled from the spec: `fetch_artifact(job_id, kind)` (§4.4) —
`NotFound` if the job is unknown or the artifact kind is not yet produced
(job not `Completed`); otherwise the recorded artifact path.  The backend
source is absent. -/
def fetch_artifact (j : Nat) (k : ArtifactKind) (s : SysState) : Except OrchError FsPath :=
  match regGet s.registry j with
  | none => Except.error OrchError.NotFound
  | some job =>
      if job.status = JobStatus.Completed then
        match artifactPath job k with
        | some p => Except.ok p
        | none => Except.error OrchError.NotFound
      else Except.error OrchError.NotFound

/-- Modelled from the spec: the download boundary operation — resolve the
artifact path via `fetch_artifact` and stream the stored bytes.  The
backend source is absent. -/
def fetchBytes (j : Nat) (k : ArtifactKind) (s : SysState) : Except OrchError (List Nat) :=
  match fetch_artifact j k s with
  | Except.error e => Except.error e
  | Except.ok p =>
      match fsRead s.files p with
      | some bs => Except.ok bs
      | none => Except.error OrchError.NotFound

/-- Modelled from the spec: `delete(job_id)` (§4.4) — removes all of the
job's artifacts via the Artifact Store and removes the Registry record;
deleting an unknown (or already-deleted) job fails with `NotFound` and
causes no side effect.  The backend source is absent. -/
def deleteJob (j : Nat) (s : SysState) : Except OrchError Unit × SysState :=
  match regGet s.registry j with
  | none => (Except.error OrchError.NotFound, s)
  | some job =>
      let fs1 := fsRemove s.files job.input_path
      let fs2 := match job.midi_path with
        | some p => fsRemove fs1 p
        | none => fs1
      let fs3 := match job.musicxml_path with
        | some p => fsRemove fs2 p
        | none => fs2
      (Except.ok (),
        { s with files := fs3, registry := regRemove s.registry j })

/-- A backend state reachable from the initial state by any interleaving
of the orchestrator's mutating operations. -/
inductive Reachable : SysState → Prop
  | init : Reachable initState
  | submit (bytes : List Nat) (ext : String) (t : Nat) (s : SysState) :
      Reachable s → Reachable (submit bytes ext t s).2
  | runStart (j : Nat) (s : SysState) :
      Reachable s → Reachable (runStart j s).2
  | runSettle (j : Nat) (r : EngineResult) (s : SysState) :
      Reachable s → Reachable (runSettle j r s)
  | deleteJob (j : Nat) (s : SysState) :
      Reachable s → Reachable (deleteJob j s).2

/-- The per-record invariant of §3: artifact paths are populated exactly
on `Completed`, the error detail exactly on `Failed`. -/
def JobWF (job : Job) : Prop :=
  (job.midi_path.isSome = true ↔ job.status = JobStatus.Completed) ∧
  (job.musicxml_path.isSome = true ↔ job.status = JobStatus.Completed) ∧
  (job.error.isSome = true ↔ job.status = JobStatus.Failed)

/-- Every record in the registry satisfies the per-record invariant. -/
def StateWF (s : SysState) : Prop :=
  ∀ j job, regGet s.registry j = some job → JobWF job

/-- A stub engine that always succeeds with fixed byte streams. -/
def engOk : FsPath → EngineResult :=
  fun _ => EngineResult.success [77, 84, 104] [60, 63]

/-- A stub engine that always fails with a model error. -/
def engBad : FsPath → EngineResult :=
  fun _ => EngineResult.failure "model error"

/-- The state after one valid submission (a `.wav` upload at time 5). -/
def sUp : SysState := (submit [1, 2, 3] "wav" 5 initState).2

/-- The state while job 0 is `Processing` (run started, not settled). -/
def sProc : SysState := (runStart 0 sUp).2

/-- The state after job 0 has completed successfully. -/
def sDone : SysState := (run engOk 0 sUp).2

/-- The state after job 0 has failed its run. -/
def sFail : SysState := (run engBad 0 sUp).2

/-- The job record of job 0 in `sUp`. -/
def upJob : Job :=
  { id := 0, status := JobStatus.Uploaded, input_path := FsPath.input 0 "wav",
    midi_path := none, musicxml_path := none, error := none, created_at := 5 }

/-- The job record of job 0 in `sProc`. -/
def procJob : Job := { upJob with status := JobStatus.Processing }

/-- The job record of job 0 in `sDone`. -/
def doneJob : Job :=
  { upJob with status := JobStatus.Completed,
               midi_path := some (FsPath.midi 1),
               musicxml_path := some (FsPath.musicxml 1) }

/-- The job record of job 0 in `sFail`. -/
def failJob : Job :=
  { upJob with status := JobStatus.Failed, error := some "model error" }

theorem regGet_regUpdate (r : List (Nat × Job)) (j j' : Nat) (job : Job) :
    regGet (regUpdate r j job) j' =
      if j = j' then Option.map (fun _ => job) (regGet r j') else regGet r j' := by
  induction r with
  | nil => by_cases h : j = j' <;> simp [regUpdate, regGet, h]
  | cons kv rest ih =>
      obtain ⟨k, old⟩ := kv
      by_cases hk : k = j <;> by_cases hj : j = j' <;>
        simp [regUpdate, regGet, hk, hj, ih]
      all_goals simp_all [regGet]

theorem regGet_regRemove (r : List (Nat × Job)) (j j' : Nat) :
    regGet (regRemove r j) j' = if j = j' then none else regGet r j' := by
  induction r with
  | nil => by_cases h : j = j' <;> simp [regRemove, regGet, h]
  | cons kv rest ih =>
      obtain ⟨k, old⟩ := kv
      by_cases hk : k = j <;> by_cases hj : j = j' <;>
        simp [regRemove, regGet, hk, hj, ih] <;> simp_all [regGet]

theorem fsRead_fsRemove (fs : List (FsPath × List Nat)) (p q : FsPath) :
    fsRead (fsRemove fs p) q = if p = q then none else fsRead fs q := by
  induction fs with
  | nil => by_cases h : p = q <;> simp [fsRemove, fsRead, h]
  | cons kv rest ih =>
      obtain ⟨r, bs⟩ := kv
      by_cases hr : r = p <;> by_cases hq : p = q <;>
        simp [fsRemove, fsRead, hr, hq, ih] <;> simp_all [fsRead]

theorem stateWF_submit (bytes : List Nat) (ext : String) (t : Nat) (s : SysState)
    (h : StateWF s) : StateWF (submit bytes ext t s).2 := by
  by_cases hext : ext ∈ allowedExts
  · intro j job hget
    simp only [submit, hext, if_pos] at hget
    simp only [regGet] at hget
    by_cases hj : s.nextId = j
    · simp only [hj, if_pos] at hget
      cases hget
      constructor
      · simp
      constructor
      · simp
      · simp
    · simp only [hj, if_false] at hget
      exact h j job hget
  · intro j job hget
    simp only [submit, hext, if_neg] at hget
    exact h j job hget

theorem stateWF_runStart (j : Nat) (s : SysState) (h : StateWF s) :
    StateWF (runStart j s).2 := by
  cases hget : regGet s.registry j with
  | none => simpa [runStart, hget] using h
  | some job =>
      by_cases h1 : job.status = JobStatus.Processing
      · simpa [runStart, hget, h1] using h
      by_cases h2 : job.status = JobStatus.Completed
      · simpa [runStart, hget, h1, h2] using h
      intro j' job' hget'
      simp only [runStart, hget, h1, h2, if_neg, if_false] at hget'
      simp only [regGet_regUpdate] at hget'
      by_cases hj : j = j'
      · simp only [hj, if_pos] at hget'
        cases hrj : regGet s.registry j' with
        | none => simp [hrj] at hget'
        | some old =>
            simp only [hrj, Option.map_some] at hget'
            cases hget'
            obtain ⟨hm, hx, he⟩ := h j job hget
            have hnc : ¬ job.midi_path.isSome = true := fun hh => h2 (hm.mp hh)
            have hxc : ¬ job.musicxml_path.isSome = true := fun hh => h2 (hx.mp hh)
            exact ⟨by simp [hnc], by simp [hxc], by simp⟩
      · simp only [hj, if_false] at hget'
        exact h j' job' hget'

theorem stateWF_runSettle (j : Nat) (r : EngineResult) (s : SysState)
    (h : StateWF s) : StateWF (runSettle j r s) := by
  cases hget : regGet s.registry j with
  | none => simpa [runSettle, hget] using h
  | some job =>
      by_cases hp : job.status = JobStatus.Processing
      · cases r with
        | success mb xb =>
            intro j' job' hget'
            simp only [runSettle, hget, hp, if_pos] at hget'
            simp only [regGet_regUpdate] at hget'
            by_cases hj : j = j'
            · simp only [hj, if_pos] at hget'
              cases hrj : regGet s.registry j' with
              | none => simp [hrj] at hget'
              | some old =>
                  simp only [hrj, Option.map_some] at hget'
                  cases hget'
                  exact ⟨by simp, by simp, by simp⟩
            · simp only [hj, if_false] at hget'
              exact h j' job' hget'
        | failure e =>
            intro j' job' hget'
            simp only [runSettle, hget, hp, if_pos] at hget'
            simp only [regGet_regUpdate] at hget'
            by_cases hj : j = j'
            · simp only [hj, if_pos] at hget'
              cases hrj : regGet s.registry j' with
              | none => simp [hrj] at hget'
              | some old =>
                  simp only [hrj, Option.map_some] at hget'
                  cases hget'
                  obtain ⟨hm, hx, he⟩ := h j job hget
                  have hne : job.status ≠ JobStatus.Completed := by simp [hp]
                  have hnc : ¬ job.midi_path.isSome = true := fun hh => hne (hm.mp hh)
                  have hxc : ¬ job.musicxml_path.isSome = true := fun hh => hne (hx.mp hh)
                  exact ⟨by simp [hnc], by simp [hxc], by simp⟩
            · simp only [hj, if_false] at hget'
              exact h j' job' hget'
      · simpa [runSettle, hget, hp] using h

theorem stateWF_deleteJob (j : Nat) (s : SysState) (h : StateWF s) :
    StateWF (deleteJob j s).2 := by
  cases hget : regGet s.registry j with
  | none => simpa [deleteJob, hget] using h
  | some job =>
      intro j' job' hget'
      simp only [deleteJob, hget] at hget'
      simp only [regGet_regRemove] at hget'
      by_cases hj : j = j'
      · simp [hj] at hget'
      · simp only [hj, if_false] at hget'
        exact h j' job' hget'

theorem reachable_wf (s : SysState) (h : Reachable s) : StateWF s := by
  induction h with
  | init => intro j job hget; simp [initState, regGet] at hget
  | submit bytes ext t s _ ih => exact stateWF_submit bytes ext t s ih
  | runStart j s _ ih => exact stateWF_runStart j s ih
  | runSettle j r s _ ih => exact stateWF_runSettle j r s ih
  | deleteJob j s _ ih => exact stateWF_deleteJob j s ih

/-- C2: for every reachable Job record after any sequence of operations,
`midi_path` and `musicxml_path` are populated if and only if the job's
status is `Completed`, and `error` is populated if and only if the status
is `Failed`. -/
theorem job_fields_iff_status (s : SysState) (j : Nat) (job : Job)
    (hs : Reachable s) (hget : regGet s.registry j = some job) :
    (job.midi_path.isSome = true ↔ job.status = JobStatus.Completed) ∧
    (job.musicxml_path.isSome = true ↔ job.status = JobStatus.Completed) ∧
    (job.error.isSome = true ↔ job.status = JobStatus.Failed) :=
  reachable_wf s hs j job hget

/-- Witness for C2 at the concrete state `sUp` holding job 0. -/
theorem job_fields_iff_status_witness :
    Reachable sUp ∧ regGet sUp.registry 0 = some upJob ∧
    ((upJob.midi_path.isSome = true ↔ upJob.status = JobStatus.Completed) ∧
     (upJob.musicxml_path.isSome = true ↔ upJob.status = JobStatus.Completed) ∧
     (upJob.error.isSome = true ↔ upJob.status = JobStatus.Failed)) :=
  ⟨Reachable.submit [1, 2, 3] "wav" 5 initState Reachable.init, by decide,
    job_fields_iff_status sUp 0 upJob
      (Reachable.submit [1, 2, 3] "wav" 5 initState Reachable.init) (by decide)⟩

/-- C5: a submission whose declared extension is outside
{wav, mp3, ogg, flac, m4a} fails with `UnsupportedFormat` before any
state mutation — the returned state is the input state, so no Job record
is created. -/
theorem submit_unsupported (bytes : List Nat) (ext : String) (t : Nat) (s : SysState)
    (h : ext ∉ allowedExts) :
    submit bytes ext t s = (Except.error OrchError.UnsupportedFormat, s) := by
  simp [submit, h]

/-- Witness for C5: submitting a `.txt` file to the fresh backend. -/
theorem submit_unsupported_witness :
    "txt" ∉ allowedExts ∧
    submit [7] "txt" 0 initState = (Except.error OrchError.UnsupportedFormat, initState) :=
  ⟨by decide, submit_unsupported [7] "txt" 0 initState (by decide)⟩

/-- C6: a valid submission immediately followed by `status` on the
returned job id reports `Uploaded` with neither artifact populated. -/
theorem submit_then_status (bytes : List Nat) (ext : String) (t : Nat) (s : SysState)
    (h : ext ∈ allowedExts) :
    (submit bytes ext t s).1 = Except.ok s.nextId ∧
    (statusOf s.nextId (submit bytes ext t s).2).map Job.status =
      Except.ok JobStatus.Uploaded ∧
    (statusOf s.nextId (submit bytes ext t s).2).map Job.midi_path = Except.ok none ∧
    (statusOf s.nextId (submit bytes ext t s).2).map Job.musicxml_path = Except.ok none := by
  refine ⟨by simp [submit, h], ?_, ?_, ?_⟩ <;>
    simp [submit, h, statusOf, regGet, Except.map]

/-- Witness for C6: a `.wav` submission to the fresh backend. -/
theorem submit_then_status_witness :
    "wav" ∈ allowedExts ∧
    ((submit [1, 2, 3] "wav" 5 initState).1 = Except.ok initState.nextId ∧
     (statusOf initState.nextId (submit [1, 2, 3] "wav" 5 initState).2).map Job.status =
       Except.ok JobStatus.Uploaded ∧
     (statusOf initState.nextId (submit [1, 2, 3] "wav" 5 initState).2).map Job.midi_path =
       Except.ok none ∧
     (statusOf initState.nextId (submit [1, 2, 3] "wav" 5 initState).2).map Job.musicxml_path =
       Except.ok none) :=
  ⟨by decide, submit_then_status [1, 2, 3] "wav" 5 initState (by decide)⟩

/-- C1: starting `run` on a job in a runnable state invokes the
Transcription Engine exactly once; a second `run` issued while the job is
still `Processing` fails fast with `AlreadyRunning`, leaves the state
untouched, and in particular never invokes the Engine a second time. -/
theorem run_exclusive (j : Nat) (s : SysState) (job : Job)
    (hget : regGet s.registry j = some job)
    (hst : job.status = JobStatus.Uploaded ∨ job.status = JobStatus.Failed) :
    (runStart j s).1 = Except.ok () ∧
    (runStart j s).2.engineCalls = s.engineCalls + 1 ∧
    runStart j (runStart j s).2 =
      (Except.error OrchError.AlreadyRunning, (runStart j s).2) ∧
    (runStart j (runStart j s).2).2.engineCalls = s.engineCalls + 1 := by
  have hq : regGet (regUpdate s.registry j
      { job with status := JobStatus.Processing, error := none }) j =
      some { job with status := JobStatus.Processing, error := none } := by
    rw [regGet_regUpdate]
    simp [hget]
  rcases hst with h | h <;>
    refine ⟨by simp [runStart, hget, h], by simp [runStart, hget, h], ?_, ?_⟩ <;>
    simp [runStart, hget, h, hq]

/-- Witness for C1: the double run on the fresh job 0 of `sUp`. -/
theorem run_exclusive_witness :
    regGet sUp.registry 0 = some upJob ∧
    (upJob.status = JobStatus.Uploaded ∨ upJob.status = JobStatus.Failed) ∧
    ((runStart 0 sUp).1 = Except.ok () ∧
     (runStart 0 sUp).2.engineCalls = sUp.engineCalls + 1 ∧
     runStart 0 (runStart 0 sUp).2 =
       (Except.error OrchError.AlreadyRunning, (runStart 0 sUp).2) ∧
     (runStart 0 (runStart 0 sUp).2).2.engineCalls = sUp.engineCalls + 1) :=
  ⟨by decide, Or.inl (by decide),
    run_exclusive 0 sUp upJob (by decide) (Or.inl (by decide))⟩

/-- C3 (amended): `run` fails with `NotFound` on an unknown job id, with
`InvalidState` on a `Completed` job (never re-processed), with
`AlreadyRunning` on a `Processing` job, and is permitted (succeeds) from
`Uploaded` or `Failed` — retry from `Failed` is allowed. -/
theorem run_state_guards (eng : FsPath → EngineResult) (j : Nat) (s : SysState) :
    (regGet s.registry j = none →
      run eng j s = (Except.error OrchError.NotFound, s)) ∧
    (∀ job, regGet s.registry j = some job → job.status = JobStatus.Completed →
      run eng j s = (Except.error OrchError.InvalidState, s)) ∧
    (∀ job, regGet s.registry j = some job → job.status = JobStatus.Processing →
      run eng j s = (Except.error OrchError.AlreadyRunning, s)) ∧
    (∀ job, regGet s.registry j = some job →
      (job.status = JobStatus.Uploaded ∨ job.status = JobStatus.Failed) →
      (run eng j s).1 = Except.ok ()) := by
  refine ⟨?_, ?_, ?_, ?_⟩
  · intro h
    simp [run, runStart, h]
  · intro job hget hc
    simp [run, runStart, hget, hc]
  · intro job hget hp
    simp [run, runStart, hget, hp]
  · intro job hget hst
    have hq : regGet (regUpdate s.registry j
        { job with status := JobStatus.Processing, error := none }) j =
        some { job with status := JobStatus.Processing, error := none } := by
      rw [regGet_regUpdate]
      simp [hget]
    rcases hst with h | h <;> simp [run, runStart, hget, h, hq]

/-- Witness for C3 (amended), exercised on the `Completed` job of
`sDone`: a re-run is rejected with `InvalidState`. -/
theorem run_state_guards_witness :
    regGet sDone.registry 0 = some doneJob ∧
    doneJob.status = JobStatus.Completed ∧
    run engOk 0 sDone = (Except.error OrchError.InvalidState, sDone) :=
  ⟨by decide, by decide, (run_state_guards engOk 0 sDone).2.1 doneJob (by decide) (by decide)⟩

/-- Counterexample to C3 as stated: job 0 of `sProc` is `Processing` —
neither `Uploaded` nor `Failed` — yet `run` fails with `AlreadyRunning`,
not `InvalidState`. -/
theorem run_processing_not_invalidstate :
    regGet sProc.registry 0 = some procJob ∧
    procJob.status ≠ JobStatus.Uploaded ∧
    procJob.status ≠ JobStatus.Failed ∧
    run engOk 0 sProc = (Except.error OrchError.AlreadyRunning, sProc) ∧
    (run engOk 0 sProc).1 ≠ Except.error OrchError.InvalidState := by
  refine ⟨by decide, by decide, by decide, by decide, by decide⟩

/-- C4: deleting an existing job removes its registry record and every
artifact it references; deleting an unknown (or already-deleted) job id
returns `NotFound` and performs no mutation at all. -/
theorem delete_spec (j : Nat) (s : SysState) :
    (regGet s.registry j = none →
      deleteJob j s = (Except.error OrchError.NotFound, s)) ∧
    (∀ job, regGet s.registry j = some job →
      (deleteJob j s).1 = Except.ok () ∧
      regGet (deleteJob j s).2.registry j = none ∧
      fsRead (deleteJob j s).2.files job.input_path = none ∧
      (∀ p, job.midi_path = some p → fsRead (deleteJob j s).2.files p = none) ∧
      (∀ p, job.musicxml_path = some p → fsRead (deleteJob j s).2.files p = none)) := by
  constructor
  · intro h
    simp [deleteJob, h]
  · intro job hget
    refine ⟨by simp [deleteJob, hget], ?_, ?_, ?_, ?_⟩
    · simp [deleteJob, hget, regGet_regRemove]
    · simp only [deleteJob, hget]
      cases job.midi_path <;> cases job.musicxml_path <;> simp [fsRead_fsRemove]
    · intro p hp
      simp only [deleteJob, hget, hp]
      cases job.musicxml_path <;> simp [fsRead_fsRemove]
    · intro p hp
      simp only [deleteJob, hget, hp]
      cases job.midi_path <;> simp [fsRead_fsRemove]

/-- Witness for C4: deleting the completed job 0 of `sDone` removes the
record, the input audio and both generated artifacts. -/
theorem delete_spec_witness :
    regGet sDone.registry 0 = some doneJob ∧
    ((deleteJob 0 sDone).1 = Except.ok () ∧
     regGet (deleteJob 0 sDone).2.registry 0 = none ∧
     fsRead (deleteJob 0 sDone).2.files doneJob.input_path = none ∧
     (∀ p, doneJob.midi_path = some p → fsRead (deleteJob 0 sDone).2.files p = none) ∧
     (∀ p, doneJob.musicxml_path = some p → fsRead (deleteJob 0 sDone).2.files p = none)) :=
  ⟨by decide, (delete_spec 0 sDone).2 doneJob (by decide)⟩

/-- C7: `fetch_artifact` fails with `NotFound` when the job id is unknown
or the job is not `Completed`; on a `Completed` job it returns the
recorded path of the requested artifact kind. -/
theorem fetch_artifact_spec (j : Nat) (k : ArtifactKind) (s : SysState) :
    (regGet s.registry j = none →
      fetch_artifact j k s = Except.error OrchError.NotFound) ∧
    (∀ job, regGet s.registry j = some job → job.status ≠ JobStatus.Completed →
      fetch_artifact j k s = Except.error OrchError.NotFound) ∧
    (∀ job p, regGet s.registry j = some job → job.status = JobStatus.Completed →
      artifactPath job k = some p → fetch_artifact j k s = Except.ok p) := by
  refine ⟨?_, ?_, ?_⟩
  · intro h
    simp [fetch_artifact, h]
  · intro job hget hc
    simp [fetch_artifact, hget, hc]
  · intro job p hget hc hp
    simp [fetch_artifact, hget, hc, hp]

/-- Witness for C7: the MIDI artifact of the completed job 0 of `sDone`. -/
theorem fetch_artifact_spec_witness :
    regGet sDone.registry 0 = some doneJob ∧
    doneJob.status = JobStatus.Completed ∧
    artifactPath doneJob ArtifactKind.midi = some (FsPath.midi 1) ∧
    fetch_artifact 0 ArtifactKind.midi sDone = Except.ok (FsPath.midi 1) :=
  ⟨by decide, by decide, by decide,
    (fetch_artifact_spec 0 ArtifactKind.midi sDone).2.2 doneJob (FsPath.midi 1)
      (by decide) (by decide) (by decide)⟩

/-- C8 (round-trip): when the Engine succeeds on a job's input, `run`
completes the job and the bytes returned by `fetchBytes` for each kind
are exactly the bytes the Engine produced and persisted. -/
theorem run_roundtrip (eng : FsPath → EngineResult) (j : Nat) (s : SysState)
    (job : Job) (mb xb : List Nat)
    (hget : regGet s.registry j = some job)
    (hst : job.status = JobStatus.Uploaded ∨ job.status = JobStatus.Failed)
    (heng : eng job.input_path = EngineResult.success mb xb) :
    (run eng j s).1 = Except.ok () ∧
    fetchBytes j ArtifactKind.midi (run eng j s).2 = Except.ok mb ∧
    fetchBytes j ArtifactKind.musicxml (run eng j s).2 = Except.ok xb := by
  have hq : regGet (regUpdate s.registry j
      { job with status := JobStatus.Processing, error := none }) j =
      some { job with status := JobStatus.Processing, error := none } := by
    rw [regGet_regUpdate]
    simp [hget]
  have hq2 : regGet (regUpdate (regUpdate s.registry j
      { job with status := JobStatus.Processing, error := none }) j
      { job with status := JobStatus.Completed,
                 midi_path := some (FsPath.midi s.nextPath),
                 musicxml_path := some (FsPath.musicxml s.nextPath),
                 error := none }) j =
      some { job with status := JobStatus.Completed,
                      midi_path := some (FsPath.midi s.nextPath),
                      musicxml_path := some (FsPath.musicxml s.nextPath),
                      error := none } := by
    rw [regGet_regUpdate]
    simp [hq]
  rcases hst with h | h <;>
    refine ⟨?_, ?_, ?_⟩ <;>
    simp [run, runStart, runSettle, fetchBytes, fetch_artifact, artifactPath,
      fsRead, hget, h, hq, hq2, heng]

/-- Witness for C8: running the stub engine on the fresh job 0 of `sUp`
and fetching both artifacts back. -/
theorem run_roundtrip_witness :
    regGet sUp.registry 0 = some upJob ∧
    (upJob.status = JobStatus.Uploaded ∨ upJob.status = JobStatus.Failed) ∧
    engOk upJob.input_path = EngineResult.success [77, 84, 104] [60, 63] ∧
    ((run engOk 0 sUp).1 = Except.ok () ∧
     fetchBytes 0 ArtifactKind.midi (run engOk 0 sUp).2 = Except.ok [77, 84, 104] ∧
     fetchBytes 0 ArtifactKind.musicxml (run engOk 0 sUp).2 = Except.ok [60, 63]) :=
  ⟨by decide, Or.inl (by decide), by decide,
    run_roundtrip engOk 0 sUp upJob [77, 84, 104] [60, 63] (by decide)
      (Or.inl (by decide)) (by decide)⟩

end Transcriber

namespace Frontend

/-- The `useState` hooks of the `Home` component
(`src/frontend/app/page.tsx`, lines 9-12); `null` is `none`. -/
structure HomeState where
  transcriptionId : Option String
  midiFile : Option String
  musicXmlFile : Option String
  isProcessing : Bool
deriving DecidableEq, Repr

/-- Initial hook values of `Home`: all ids and files `null`,
`isProcessing` false. -/
def initialHomeState : HomeState :=
  { transcriptionId := none, midiFile := none, musicXmlFile := none,
    isProcessing := false }

/-- JavaScript truthiness of a nullable string: `null` and the empty
string are falsy, every other string truthy. -/
def truthy : Option String → Bool
  | none => false
  | some s => if s = "" then false else true

/-- `handleTranscriptionComplete(id, midi, xml?)` of `page.tsx` lines
14-19: stores the id and the midi file, stores `xml || null` (so a
missing or empty `xml` becomes `null`), clears `isProcessing`. -/
def handleTranscriptionComplete (st : HomeState) (id midi : String)
    (xml : Option String) : HomeState :=
  { st with
    transcriptionId := some id,
    midiFile := some midi,
    musicXmlFile :=
      match xml with
      | some x => if x = "" then none else some x
      | none => none,
    isProcessing := false }

/-- `handleReset()` of `page.tsx` lines 21-26: clears the id and both
files, clears `isProcessing`. -/
def handleReset (st : HomeState) : HomeState :=
  { st with
    transcriptionId := none,
    midiFile := none,
    musicXmlFile := none,
    isProcessing := false }

/-- Which conditional blocks of `Home`'s JSX are rendered. -/
structure HomeView where
  showUploader : Bool
  showSheetMusic : Bool
  showMidiPlayer : Bool
  showMidiDownload : Bool
  showMusicXmlDownload : Bool
deriving DecidableEq, Repr

/-- The render logic of `Home` (`page.tsx` lines 56-144): the
`!transcriptionId ?` ternary selects the upload view; in the results
view, the sheet-music panel and MusicXML link are guarded by
`musicXmlFile &&`, the player and MIDI link by `midiFile &&`. -/
def render (st : HomeState) : HomeView :=
  if truthy st.transcriptionId = false then
    { showUploader := true, showSheetMusic := false, showMidiPlayer := false,
      showMidiDownload := false, showMusicXmlDownload := false }
  else
    { showUploader := false,
      showSheetMusic := truthy st.musicXmlFile,
      showMidiPlayer := truthy st.midiFile,
      showMidiDownload := truthy st.midiFile,
      showMusicXmlDownload := truthy st.musicXmlFile }

/-- C9: from any component state, `handleReset` sets `transcriptionId`,
`midiFile` and `musicXmlFile` to `null` and `isProcessing` to false,
after which the upload view (`AudioUploader`) is rendered and neither
download link is shown. -/
theorem handleReset_spec (st : HomeState) :
    (handleReset st).transcriptionId = none ∧
    (handleReset st).midiFile = none ∧
    (handleReset st).musicXmlFile = none ∧
    (handleReset st).isProcessing = false ∧
    (render (handleReset st)).showUploader = true ∧
    (render (handleReset st)).showMidiDownload = false ∧
    (render (handleReset st)).showMusicXmlDownload = false := by
  simp [handleReset, render, truthy]

/-- C10 (amended): `handleTranscriptionComplete` without an `xml`
argument (or with the empty string) sets `musicXmlFile` to `null`, so the
sheet-music panel and the MusicXML download link are not rendered; the
MIDI player and MIDI download link are rendered if and only if both the
transcription id and the midi file string are truthy (non-empty). -/
theorem handleTranscriptionComplete_spec (st : HomeState) (id midi : String)
    (xml : Option String) (hxml : xml = none ∨ xml = some "") :
    (handleTranscriptionComplete st id midi xml).musicXmlFile = none ∧
    (render (handleTranscriptionComplete st id midi xml)).showSheetMusic = false ∧
    (render (handleTranscriptionComplete st id midi xml)).showMusicXmlDownload = false ∧
    ((render (handleTranscriptionComplete st id midi xml)).showMidiPlayer = true ↔
      (id ≠ "" ∧ midi ≠ "")) ∧
    ((render (handleTranscriptionComplete st id midi xml)).showMidiDownload = true ↔
      (id ≠ "" ∧ midi ≠ "")) := by
  rcases hxml with h | h <;> subst h <;>
    by_cases hid : id = "" <;> by_cases hm : midi = "" <;>
    simp [handleTranscriptionComplete, render, truthy, hid, hm]

/-- Witness for C10 (amended): a completed transcription with non-empty
id and midi file and no MusicXML. -/
theorem handleTranscriptionComplete_spec_witness :
    ((none : Option String) = none ∨ (none : Option String) = some "") ∧
    ((handleTranscriptionComplete initialHomeState "job1" "a.mid" none).musicXmlFile = none ∧
     (render (handleTranscriptionComplete initialHomeState "job1" "a.mid" none)).showSheetMusic
       = false ∧
     (render (handleTranscriptionComplete initialHomeState "job1" "a.mid" none)).showMusicXmlDownload
       = false ∧
     ((render (handleTranscriptionComplete initialHomeState "job1" "a.mid" none)).showMidiPlayer
       = true ↔ ("job1" ≠ "" ∧ "a.mid" ≠ "")) ∧
     ((render (handleTranscriptionComplete initialHomeState "job1" "a.mid" none)).showMidiDownload
       = true ↔ ("job1" ≠ "" ∧ "a.mid" ≠ ""))) :=
  ⟨Or.inl rfl,
    handleTranscriptionComplete_spec initialHomeState "job1" "a.mid" none (Or.inl rfl)⟩

/-- Counterexample to C10 as stated: after
`handleTranscriptionComplete("job1", "", undefined)` the `midiFile` state
is non-null (it is the empty string), yet neither the MIDI player nor the
MIDI download link is rendered — "rendered iff midiFile is non-null"
fails because JSX guards test JavaScript truthiness, not nullness. -/
theorem midiFile_nonnull_counterexample :
    (handleTranscriptionComplete initialHomeState "job1" "" none).musicXmlFile = none ∧
    (handleTranscriptionComplete initialHomeState "job1" "" none).midiFile ≠ none ∧
    (render (handleTranscriptionComplete initialHomeState "job1" "" none)).showMidiPlayer
      = false ∧
    (render (handleTranscriptionComplete initialHomeState "job1" "" none)).showMidiDownload
      = false := by
  decide

end Frontend
